import Mathlib

/-!
# Verification of the `mcp-notion` rate-limited Notion API client

Shallow embedding of `src/client.ts` (the `NotionClient` class: sliding-window
admission control, 429 retry, error classification, per-operation request
assembly) and of the tool-adapter layer (tool handlers, response envelopes,
`errorResult`).  Times are milliseconds since epoch, modelled as `Int`.
-/

/-! ## Sliding-window admission control (`NotionClient.throttle`)

Source (`client.ts` lines 25-43): on each call, `Date.now()` is taken, all
retained timestamps `ts` with `now - ts >= 1000` are dropped, and if at least
3 timestamps remain the call sleeps `1000 - (now - oldest) + 50` ms (guarded
by `waitMs > 0`) before pushing its own admission timestamp (taken *after*
the sleep). -/

/-- Window duration `windowMs = 1_000` from `throttle`. -/
def windowMs : Int := 1000

/-- Fixed safety margin (the `+ 50` in the wait computation). -/
def margin : Int := 50

/-- `maxRequests = 3` from `throttle`. -/
def maxRequests : Nat := 3

/-- The retention predicate of the prune step: `now - ts < windowMs`. -/
def inWindow (now ts : Int) : Bool := decide (now - ts < windowMs)

/-- The prune step `this.requestTimestamps.filter((ts) => now - ts < windowMs)`. -/
def pruneW (now : Int) (l : List Int) : List Int := l.filter (inWindow now)

/-- The sleep duration computed by `throttle`: `0` when fewer than
`maxRequests` timestamps survive the prune, otherwise
`windowMs - (now - oldest) + 50` where `oldest` is the first retained
timestamp (clamped at `0` by the `if (waitMs > 0)` guard). -/
def throttleWaitMs (now : Int) (l : List Int) : Int :=
  let pruned := pruneW now l
  if maxRequests ≤ pruned.length then
    let oldest := pruned.headD 0
    let w := windowMs - (now - oldest) + margin
    if 0 < w then w else 0
  else 0

/-- One complete sequential execution of `throttle` whose check runs at time
`now`: returns the stored timestamp list after the final push together with
the admission timestamp.  The push records `now + wait` (the value of
`Date.now()` after the sleep). -/
def throttleStep (l : List Int) (now : Int) : List Int × Int :=
  let pruned := pruneW now l
  let adm := now + throttleWaitMs now l
  (pruned ++ [adm], adm)

/-- State (stored timestamp list, current time) after `n` back-to-back
sequential calls starting from an empty window at time `t0`.  Back-to-back
means each call's admission check runs at the instant the previous call was
admitted. -/
def burstState (t0 : Int) : Nat → List Int × Int
  | 0 => ([], t0)
  | n + 1 =>
      let s := burstState t0 n
      throttleStep s.1 s.2

/-- Admission timestamps of the first `n` back-to-back sequential calls, in
order. -/
def burstAdmissions (t0 : Int) (n : Nat) : List Int :=
  (List.range n).map (fun k => (burstState t0 (k + 1)).2)

/-- Number of admission timestamps falling inside the rolling `windowMs`
window ending at time `s` (the window `(s - windowMs, s]`). -/
def countWindow (A : List Int) (s : Int) : Nat :=
  (A.filter (fun a => decide (s - a < windowMs) && decide (a ≤ s))).length

/-! ### Helper lemmas about filters -/

/-- Filtering by a weaker predicate first does not change a filter. -/
theorem filter_filter_of_imp {p q : Int → Bool} (h : ∀ a, q a = true → p a = true) :
    ∀ L : List Int, (L.filter p).filter q = L.filter q := by
  intro L
  induction L with
  | nil => rfl
  | cons x xs ih =>
      by_cases hp : p x = true
      · by_cases hq : q x = true
        · simp [List.filter_cons, hp, hq, ih]
        · simp [List.filter_cons, hp, hq, ih]
      · have hq : ¬ q x = true := fun hq => hp (h x hq)
        simp [List.filter_cons, hp, hq, ih]

/-- Filtering respects pointwise agreement on the list's members. -/
theorem filter_congr_mem {p q : Int → Bool} :
    ∀ L : List Int, (∀ a ∈ L, p a = q a) → L.filter p = L.filter q := by
  intro L
  induction L with
  | nil => intro _; rfl
  | cons x xs ih =>
      intro h
      have hx := h x (List.mem_cons_self x xs)
      have hxs := ih (fun a ha => h a (List.mem_cons_of_mem x ha))
      by_cases hp : p x = true
      · rw [List.filter_cons, List.filter_cons, hp, ← hx, hp, hxs]
      · have hp' : p x = false := Bool.eq_false_iff.mpr hp
        rw [List.filter_cons, List.filter_cons, hp', ← hx, hp', hxs]

theorem countWindow_append_single (A : List Int) (a s : Int) :
    countWindow (A ++ [a]) s =
      countWindow A s + (if (s - a < windowMs ∧ a ≤ s) then 1 else 0) := by
  unfold countWindow
  rw [List.filter_append, List.length_append]
  congr 1
  by_cases h1 : s - a < windowMs
  · by_cases h2 : a ≤ s
    · simp [List.filter_cons, h1, h2]
    · simp [List.filter_cons, h1, h2]
  · simp [List.filter_cons, h1]

/-- The invariant carried along a sequential run of the throttle.
`t` is the current time, `l` the stored timestamp list, `A` the chronological
list of all admissions so far. -/
def ThrottleInv (t : Int) (l A : List Int) : Prop :=
  A.filter (inWindow t) = l.filter (inWindow t)
  ∧ (A.filter (inWindow t)).length ≤ maxRequests
  ∧ (∀ a ∈ A, a ≤ t)
  ∧ ∀ s : Int, countWindow A s ≤ maxRequests

theorem throttleWaitMs_nonneg (now : Int) (l : List Int) :
    0 ≤ throttleWaitMs now l := by
  unfold throttleWaitMs
  dsimp only
  split
  · split <;> omega
  · omega

/-- Key step lemma: one execution of `throttle` at any time `now` not earlier
than the invariant's reference time preserves the invariant, re-anchored at
the new admission timestamp. -/
theorem throttleStep_inv {t now : Int} {l A : List Int}
    (hInv : ThrottleInv t l A) (htn : t ≤ now) :
    ThrottleInv (throttleStep l now).2 (throttleStep l now).1
      (A ++ [(throttleStep l now).2]) := by
  obtain ⟨hfe, hflen, hle, hcw⟩ := hInv
  -- the pruned list equals the list of all admissions inside the window of `now`
  have hsub : ∀ a : Int, inWindow now a = true → inWindow t a = true := by
    intro a ha
    simp only [inWindow, decide_eq_true_eq] at *
    omega
  have hAnow : A.filter (inWindow now) = pruneW now l := by
    calc A.filter (inWindow now)
        = (A.filter (inWindow t)).filter (inWindow now) :=
          (filter_filter_of_imp hsub A).symm
      _ = (l.filter (inWindow t)).filter (inWindow now) := by rw [hfe]
      _ = l.filter (inWindow now) := filter_filter_of_imp hsub l
      _ = pruneW now l := rfl
  have hprunedlen : (pruneW now l).length ≤ maxRequests := by
    calc (pruneW now l).length
        = (A.filter (inWindow now)).length := by rw [hAnow]
      _ = ((A.filter (inWindow t)).filter (inWindow now)).length := by
          rw [filter_filter_of_imp hsub A]
      _ ≤ (A.filter (inWindow t)).length := List.length_filter_le _ _
      _ ≤ maxRequests := hflen
  have hw0 : 0 ≤ throttleWaitMs now l := throttleWaitMs_nonneg now l
  have hadm : (throttleStep l now).2 = now + throttleWaitMs now l := rfl
  have hlist : (throttleStep l now).1 =
      pruneW now l ++ [now + throttleWaitMs now l] := rfl
  -- bound on older admissions inside any window that ends at or after `adm`
  have hkey : ∀ s : Int, now + throttleWaitMs now l ≤ s →
      ((pruneW now l).filter
        (fun a => decide (s - a < windowMs) && decide (a ≤ s))).length + 1
        ≤ maxRequests := by
    intro s hs
    by_cases hfull : maxRequests ≤ (pruneW now l).length
    · -- wait branch taken: the oldest retained timestamp has aged out by `s`
      have hlen3 : (pruneW now l).length = maxRequests :=
        le_antisymm hprunedlen hfull
      obtain ⟨o, tl, hpr⟩ : ∃ o tl, pruneW now l = o :: tl := by
        cases hpr : pruneW now l with
        | nil => rw [hpr] at hlen3; simp [maxRequests] at hlen3
        | cons o tl => exact ⟨o, tl, rfl⟩
      have homem : inWindow now o = true := by
        have : o ∈ pruneW now l := by rw [hpr]; exact List.mem_cons_self o tl
        exact (List.mem_filter.mp this).2
      have hownd : now - o < windowMs := by
        simpa [inWindow] using homem
      have hpos : 0 < windowMs - (now - o) + margin := by
        unfold windowMs margin at *
        omega
      have hfull' : maxRequests ≤ (o :: tl).length := hpr ▸ hfull
      have hwval : throttleWaitMs now l = windowMs - (now - o) + margin := by
        unfold throttleWaitMs
        dsimp only
        rw [hpr]
        simp only [List.headD_cons]
        rw [if_pos hfull', if_pos hpos]
      have hofail : (decide (s - o < windowMs) && decide (o ≤ s)) = false := by
        have : ¬ (s - o < windowMs) := by
          rw [hwval] at hs
          unfold windowMs margin at *
          omega
        simp [this]
      rw [hpr, List.filter_cons, hofail]
      simp only [Bool.false_eq_true, if_false]
      have hfl : (tl.filter
          (fun a => decide (s - a < windowMs) && decide (a ≤ s))).length
          ≤ tl.length := List.length_filter_le _ _
      have htllen : tl.length + 1 = maxRequests := by
        rw [hpr] at hlen3
        simpa using hlen3
      omega
    · -- no wait: fewer than `maxRequests` retained timestamps
      have hfl : ((pruneW now l).filter
          (fun a => decide (s - a < windowMs) && decide (a ≤ s))).length
          ≤ (pruneW now l).length := List.length_filter_le _ _
      omega
  rw [hadm, hlist]
  have hle' : ∀ a ∈ A ++ [now + throttleWaitMs now l],
      a ≤ now + throttleWaitMs now l := by
    intro a ha
    rcases List.mem_append.mp ha with ha | ha
    · have := hle a ha
      omega
    · simp only [List.mem_singleton] at ha
      omega
  have hcnt : ∀ s : Int,
      countWindow (A ++ [now + throttleWaitMs now l]) s ≤ maxRequests := by
    intro s
    rw [countWindow_append_single]
    by_cases hin : s - (now + throttleWaitMs now l) < windowMs
        ∧ now + throttleWaitMs now l ≤ s
    · simp only [hin, if_true]
      have hcond : ∀ a : Int,
          (decide (s - a < windowMs) && decide (a ≤ s)) = true →
          inWindow now a = true := by
        intro a ha
        simp only [Bool.and_eq_true, decide_eq_true_eq] at ha
        simp only [inWindow, decide_eq_true_eq]
        have h1 := hin.2
        omega
      have hAs : A.filter (fun a => decide (s - a < windowMs) && decide (a ≤ s))
          = (pruneW now l).filter
            (fun a => decide (s - a < windowMs) && decide (a ≤ s)) := by
        calc A.filter (fun a => decide (s - a < windowMs) && decide (a ≤ s))
            = (A.filter (inWindow now)).filter
                (fun a => decide (s - a < windowMs) && decide (a ≤ s)) :=
              (filter_filter_of_imp hcond A).symm
          _ = (pruneW now l).filter
                (fun a => decide (s - a < windowMs) && decide (a ≤ s)) := by
              rw [hAnow]
      unfold countWindow
      rw [hAs]
      exact hkey s hin.2
    · simp only [hin, if_false]
      have := hcw s
      omega
  have hsub2 : ∀ a : Int,
      inWindow (now + throttleWaitMs now l) a = true → inWindow now a = true := by
    intro a ha
    simp only [inWindow, decide_eq_true_eq] at *
    omega
  have hAadm : A.filter (inWindow (now + throttleWaitMs now l)) =
      (pruneW now l).filter (inWindow (now + throttleWaitMs now l)) := by
    calc A.filter (inWindow (now + throttleWaitMs now l))
        = (A.filter (inWindow now)).filter
            (inWindow (now + throttleWaitMs now l)) :=
          (filter_filter_of_imp hsub2 A).symm
      _ = (pruneW now l).filter (inWindow (now + throttleWaitMs now l)) := by
          rw [hAnow]
  have hadmself : inWindow (now + throttleWaitMs now l)
      (now + throttleWaitMs now l) = true := by
    simp only [inWindow, decide_eq_true_eq]
    unfold windowMs
    omega
  refine ⟨?_, ?_, hle', hcnt⟩
  · -- filtered equality at the new time
    rw [List.filter_append, List.filter_append, hAadm]
  · -- at most `maxRequests` admissions in the window of the new admission:
    -- an instance of the rolling-window bound, since every admission is
    -- at or before the new admission time
    have hagree := filter_congr_mem (p := inWindow (now + throttleWaitMs now l))
      (q := fun a => decide ((now + throttleWaitMs now l) - a < windowMs)
        && decide (a ≤ now + throttleWaitMs now l))
      (A ++ [now + throttleWaitMs now l])
      (by
        intro a ha
        have h1 := hle' a ha
        simp [inWindow, h1])
    rw [hagree]
    exact hcnt (now + throttleWaitMs now l)

/-- The invariant holds along every back-to-back sequential burst. -/
theorem burst_inv (t0 : Int) : ∀ n : Nat,
    ThrottleInv (burstState t0 n).2 (burstState t0 n).1 (burstAdmissions t0 n) := by
  intro n
  induction n with
  | zero =>
      refine ⟨rfl, ?_, ?_, ?_⟩
      · simp [burstState, burstAdmissions, maxRequests]
      · simp [burstAdmissions]
      · intro s
        simp [burstAdmissions, countWindow]
  | succ n ih =>
      have hstep := throttleStep_inv ih (le_refl (burstState t0 n).2)
      have hA : burstAdmissions t0 (n + 1) =
          burstAdmissions t0 n ++ [(burstState t0 (n + 1)).2] := by
        unfold burstAdmissions
        rw [List.range_succ, List.map_append]
        rfl
      have hS : burstState t0 (n + 1) =
          throttleStep (burstState t0 n).1 (burstState t0 n).2 := rfl
      rw [hA, hS]
      exact hstep

/-- C1.  Admission-rate invariant of `NotionClient.throttle` for back-to-back
sequential calls: (i) among the admission timestamps of any burst of
sequential calls, no rolling `windowMs` window ever contains more than
`maxRequests` admissions (in particular never 4 within 1000 ms); (ii) after
any number of admissions completes, the number of retained timestamps that
fall within the trailing window of the latest admission instant is at most
`maxRequests`; (iii) whenever the admission check finds at least
`maxRequests` retained timestamps inside the trailing window, the computed
suspension is exactly `windowMs - (now - oldest) + 50` ms. -/
theorem throttle_burst_admission_bound (t0 : Int) (n : Nat) (s : Int) :
    countWindow (burstAdmissions t0 n) s ≤ maxRequests
    ∧ ((burstState t0 n).1.filter (inWindow (burstState t0 n).2)).length
        ≤ maxRequests
    ∧ (∀ (l : List Int) (now : Int), maxRequests ≤ (pruneW now l).length →
        throttleWaitMs now l =
          windowMs - (now - (pruneW now l).headD 0) + margin) := by
  obtain ⟨hfe, hflen, hle, hcw⟩ := burst_inv t0 n
  refine ⟨hcw s, ?_, ?_⟩
  · rw [← hfe]
    exact hflen
  · intro l now hfull
    obtain ⟨o, tl, hpr⟩ : ∃ o tl, pruneW now l = o :: tl := by
      cases hpr : pruneW now l with
      | nil => rw [hpr] at hfull; simp [maxRequests] at hfull
      | cons o tl => exact ⟨o, tl, rfl⟩
    have homem : inWindow now o = true := by
      have : o ∈ pruneW now l := by rw [hpr]; exact List.mem_cons_self o tl
      exact (List.mem_filter.mp this).2
    have hownd : now - o < windowMs := by
      simpa [inWindow] using homem
    have hpos : 0 < windowMs - (now - o) + margin := by
      unfold windowMs margin at *
      omega
    have hfull' : maxRequests ≤ (o :: tl).length := hpr ▸ hfull
    unfold throttleWaitMs
    dsimp only
    rw [hpr]
    simp only [List.headD_cons]
    rw [if_pos hfull', if_pos hpos]

/-- Witness for C1: concrete burst of 7 back-to-back calls starting at `t0 = 0`
(admissions `[0, 0, 0, 1050, 1050, 1050, 2100]`), and the concrete wait
computation for a full window `[0, 0, 0]` checked at `now = 0`. -/
theorem throttle_burst_admission_bound_witness :
    countWindow (burstAdmissions 0 7) 1050 ≤ maxRequests
    ∧ maxRequests ≤ (pruneW 0 [0, 0, 0]).length
    ∧ throttleWaitMs 0 [0, 0, 0] =
        windowMs - (0 - (pruneW 0 [0, 0, 0]).headD 0) + margin :=
  ⟨(throttle_burst_admission_bound 0 7 1050).1, by decide,
    (throttle_burst_admission_bound 0 7 1050).2.2 [0, 0, 0] 0 (by decide)⟩

/-! ## Concurrent interleavings of the admission check

In the JavaScript runtime each call to `throttle` runs synchronously from its
start up to the `await new Promise(...setTimeout...)` suspension point (the
prune, the length check, the wait computation, and — when no wait is needed —
the push all execute atomically), while the push of a waiting call happens
only when its timer fires.  Several calls can therefore pass the admission
check against the same stored-timestamp snapshot and sleep simultaneously.
The scheduler below models exactly these two atomic blocks. -/

/-- Events of the cooperative scheduler: `arrive` runs a new call's admission
check at the current instant (synchronously up to the suspension point);
`fire` fires the earliest pending rate-limit timer, resuming that call, which
then records its admission timestamp. -/
inductive ThrottleEvent where
  | arrive
  | fire
deriving DecidableEq

/-- Scheduler state: current time, the shared `requestTimestamps` array, the
resume instants of calls suspended at the rate-limit wait (in timer order),
and the chronological list of admission timestamps of actual sends. -/
structure SchedState where
  time : Int
  stored : List Int
  pending : List Int
  admitted : List Int
deriving DecidableEq

/-- One scheduler step.  `arrive`: the call prunes the shared list (the
assignment on line 30 of `client.ts` happens before any suspension), checks
the length, and either pushes its admission timestamp immediately (no wait)
or computes its wait from the snapshot and suspends.  `fire`: the earliest
suspended call resumes at its timer's instant and pushes `Date.now()`;
no re-check of the window occurs on resume. -/
def schedStep (st : SchedState) : ThrottleEvent → SchedState
  | .arrive =>
      let pruned := pruneW st.time st.stored
      if maxRequests ≤ pruned.length then
        { st with
            stored := pruned,
            pending := st.pending ++ [st.time + throttleWaitMs st.time st.stored] }
      else
        { st with
            stored := pruned ++ [st.time],
            admitted := st.admitted ++ [st.time] }
  | .fire =>
      match st.pending with
      | [] => st
      | r :: rest =>
          { time := r, stored := st.stored ++ [r], pending := rest,
            admitted := st.admitted ++ [r] }

/-- Run a whole schedule from time `0` with an empty window. -/
def runSched (events : List ThrottleEvent) : SchedState :=
  events.foldl schedStep ⟨0, [], [], []⟩

/-- Seven tool invocations arriving concurrently, then the four pending
rate-limit timers firing. -/
def burstSchedule : List ThrottleEvent :=
  List.replicate 7 ThrottleEvent.arrive ++ List.replicate 4 ThrottleEvent.fire

/-- C2.  Failing execution: seven concurrent calls start at `t = 0`.  Three
are admitted at `0`; the remaining four each run the admission check against
the same `[0, 0, 0]` snapshot, each computes a `1050` ms wait, and all four
are admitted when their timers fire at `t = 1050`.  Four actual sends fall
inside the single rolling `windowMs` window ending at `1050`, exceeding
`maxRequests` — the admission decision is not recomputed after the
suspension, so concurrent in-flight calls violate the claimed bound. -/
theorem concurrent_throttle_admits_four_in_window :
    (runSched burstSchedule).admitted = [0, 0, 0, 1050, 1050, 1050, 1050]
    ∧ countWindow (runSched burstSchedule).admitted 1050 = 4
    ∧ maxRequests < countWindow (runSched burstSchedule).admitted 1050 := by
  refine ⟨?_, ?_, ?_⟩ <;> decide

/-! ## JSON values and JavaScript truthiness

Dynamic `Record<string, unknown>` bodies are modelled as a tagged JSON tree
passed through opaquely.  Objects are ordered field lists, mirroring the
insertion order of the source's body assembly. -/

/-- A JSON document. -/
inductive JsonVal where
  | null
  | bool (b : Bool)
  | num (n : Int)
  | str (s : String)
  | arr (elems : List JsonVal)
  | obj (fields : List (String × JsonVal))

/-- JavaScript truthiness of a JSON value (`if (x)`): `null`, `false`, `0`
and the empty string are falsy; every array and object is truthy. -/
def jsTruthy : JsonVal → Bool
  | .null => false
  | .bool b => b
  | .num n => decide (n ≠ 0)
  | .str s => decide (s ≠ "")
  | .arr _ => true
  | .obj _ => true

/-- `if (x) body.k = x` for an optional string argument (absent or falsy
strings are omitted). -/
def optStrField (k : String) : Option String → List (String × JsonVal)
  | none => []
  | some s => if s = "" then [] else [(k, .str s)]

/-- `if (x) body.k = x` for an optional object/array argument forwarded
opaquely. -/
def optValField (k : String) : Option JsonVal → List (String × JsonVal)
  | none => []
  | some v => if jsTruthy v then [(k, v)] else []

/-- `if (x) body.k = x` for an optional number argument (absent or `0` is
omitted). -/
def optIntField (k : String) : Option Int → List (String × JsonVal)
  | none => []
  | some n => if n = 0 then [] else [(k, .num n)]

/-- Whether the assembled body contains a field named `k`. -/
def hasKey (body : List (String × JsonVal)) (k : String) : Bool :=
  body.any (fun p => p.1 == k)

/-! ## Per-operation body and path assembly (`NotionClient` methods) -/

/-- Body of `search` (`client.ts` lines 88-102): fields `query`, `filter`,
`sort`, `start_cursor`, `page_size`, each included only when the argument is
supplied and truthy. -/
def searchBody (query : Option String) (filter sort : Option JsonVal)
    (startCursor : Option String) (pageSize : Option Int) :
    List (String × JsonVal) :=
  optStrField "query" query ++ optValField "filter" filter
    ++ optValField "sort" sort ++ optStrField "start_cursor" startCursor
    ++ optIntField "page_size" pageSize

/-- Body of `queryDatabase` (lines 112-129): `filter`, `sorts`,
`start_cursor`, `page_size`. -/
def queryDatabaseBody (filter sorts : Option JsonVal)
    (startCursor : Option String) (pageSize : Option Int) :
    List (String × JsonVal) :=
  optValField "filter" filter ++ optValField "sorts" sorts
    ++ optStrField "start_cursor" startCursor ++ optIntField "page_size" pageSize

/-- Body of `createDatabase` (lines 131-141): all three fields are always
present. -/
def createDatabaseBody (parentPageId title : String) (properties : JsonVal) :
    List (String × JsonVal) :=
  [("parent", .obj [("type", .str "page_id"), ("page_id", .str parentPageId)]),
   ("title", .arr [.obj [("type", .str "text"),
     ("text", .obj [("content", .str title)])]]),
   ("properties", properties)]

/-- Body of `createPage` (lines 147-159): `parent` (with the computed key
`[parentType]: parentId`) and `properties` always, `children` only when
supplied (arrays are always truthy). -/
def createPageBody (parentId parentType : String) (properties : JsonVal)
    (children : Option (List JsonVal)) : List (String × JsonVal) :=
  [("parent", .obj [("type", .str parentType), (parentType, .str parentId)]),
   ("properties", properties)]
    ++ (match children with
        | none => []
        | some xs => [("children", .arr xs)])

/-- Body of `updatePage` (lines 165-174): `properties` when supplied and
truthy; `archived` whenever it is not `undefined` (so `false` is sent). -/
def updatePageBody (properties : Option JsonVal) (archived : Option Bool) :
    List (String × JsonVal) :=
  optValField "properties" properties
    ++ (match archived with
        | none => []
        | some b => [("archived", .bool b)])

/-- The `start_cursor=...` query parameter (`if (startCursor) params.push(...)`). -/
def cursorParam : Option String → List String
  | none => []
  | some s => if s = "" then [] else ["start_cursor=" ++ s]

/-- The `page_size=...` query parameter (`if (pageSize) params.push(...)`). -/
def pageSizeParam : Option Int → List String
  | none => []
  | some n => if n = 0 then [] else ["page_size=" ++ toString n]

/-- Append `?a&b` to a path when any query parameter is present
(`if (params.length > 0) path += "?" + params.join("&")`). -/
def withParams (base : String) (params : List String) : String :=
  if 0 < params.length then base ++ "?" ++ String.intercalate "&" params
  else base

/-- Path of `getBlockChildren` (lines 184-195). -/
def getBlockChildrenPath (blockId : String) (startCursor : Option String)
    (pageSize : Option Int) : String :=
  withParams ("/blocks/" ++ blockId ++ "/children")
    (cursorParam startCursor ++ pageSizeParam pageSize)

/-- Path of `listUsers` (lines 216-226). -/
def listUsersPath (startCursor : Option String) (pageSize : Option Int) :
    String :=
  withParams "/users" (cursorParam startCursor ++ pageSizeParam pageSize)

/-! ## Request construction (`NotionClient.request`, lines 45-65) -/

/-- `BASE_URL` from `client.ts` line 1. -/
def BASE_URL : String := "https://api.notion.com/v1"

/-- `NOTION_VERSION` from `client.ts` line 2. -/
def NOTION_VERSION : String := "2022-06-28"

/-- An outbound HTTP request exactly as `fetch` receives it: URL joined from
the base endpoint and the path, the three fixed headers, and the optional
JSON document handed to `JSON.stringify` (attached only when a body was
supplied *and* the method is `POST` or `PATCH`). -/
structure WireRequest where
  method : String
  url : String
  authorization : String
  notionVersion : String
  contentType : String
  body : Option JsonVal

/-- Assembles the `fetch` call of `request`. -/
def buildWire (apiKey method path : String) (body : Option JsonVal) :
    WireRequest :=
  { method := method
    url := BASE_URL ++ path
    authorization := "Bearer " ++ apiKey
    notionVersion := NOTION_VERSION
    contentType := "application/json"
    body :=
      if body.isSome ∧ (method = "POST" ∨ method = "PATCH") then body
      else none }

/-! ### The thirteen per-operation requests (wire contract) -/

def searchRequest (key : String) (q : Option String) (f so : Option JsonVal)
    (sc : Option String) (ps : Option Int) : WireRequest :=
  buildWire key "POST" "/search" (some (.obj (searchBody q f so sc ps)))

def getDatabaseRequest (key id : String) : WireRequest :=
  buildWire key "GET" ("/databases/" ++ id) none

def queryDatabaseRequest (key id : String) (f so : Option JsonVal)
    (sc : Option String) (ps : Option Int) : WireRequest :=
  buildWire key "POST" ("/databases/" ++ id ++ "/query")
    (some (.obj (queryDatabaseBody f so sc ps)))

def createDatabaseRequest (key parentPageId title : String)
    (properties : JsonVal) : WireRequest :=
  buildWire key "POST" "/databases"
    (some (.obj (createDatabaseBody parentPageId title properties)))

def createPageRequest (key parentId parentType : String) (properties : JsonVal)
    (children : Option (List JsonVal)) : WireRequest :=
  buildWire key "POST" "/pages"
    (some (.obj (createPageBody parentId parentType properties children)))

def getPageRequest (key id : String) : WireRequest :=
  buildWire key "GET" ("/pages/" ++ id) none

def updatePageRequest (key id : String) (properties : Option JsonVal)
    (archived : Option Bool) : WireRequest :=
  buildWire key "PATCH" ("/pages/" ++ id)
    (some (.obj (updatePageBody properties archived)))

def getBlockRequest (key id : String) : WireRequest :=
  buildWire key "GET" ("/blocks/" ++ id) none

def getBlockChildrenRequest (key id : String) (sc : Option String)
    (ps : Option Int) : WireRequest :=
  buildWire key "GET" (getBlockChildrenPath id sc ps) none

def appendBlockChildrenRequest (key id : String) (children : List JsonVal) :
    WireRequest :=
  buildWire key "PATCH" ("/blocks/" ++ id ++ "/children")
    (some (.obj [("children", .arr children)]))

def deleteBlockRequest (key id : String) : WireRequest :=
  buildWire key "DELETE" ("/blocks/" ++ id) none

def listUsersRequest (key : String) (sc : Option String) (ps : Option Int) :
    WireRequest :=
  buildWire key "GET" (listUsersPath sc ps) none

def getUserRequest (key id : String) : WireRequest :=
  buildWire key "GET" ("/users/" ++ id) none

/-! ## Responses, the 429 backoff and the retry loop (`request`, lines 65-82) -/

/-- One HTTP response as observed through the `fetch` API: status code and
text, the `Retry-After` header (`headers.get` returns `null` when absent),
the body text (`none` models a failed `res.text()` read, which the source
swallows via `.catch(() => "")`), and the decoded JSON payload returned by
`res.json()`. -/
structure HttpResponse where
  status : Nat
  statusText : String
  retryAfter : Option String
  bodyText : Option String
  jsonBody : JsonVal

/-- `res.ok` of the `fetch` API: status in the range 200-299. -/
def resOk (r : HttpResponse) : Bool :=
  decide (200 ≤ r.status) && decide (r.status < 300)

/-- A JavaScript number as it arises from `Number(string)`: a finite value
(rational, since string numeric literals denote finite decimals), `NaN`, or
a signed infinity (from the `Infinity` literal). -/
inductive JsNum where
  | nan
  | inf
  | neginf
  | val (q : ℚ)
deriving DecidableEq

/-- The syntactic outcome of parsing a string numeric literal: `NaN`, a
signed infinity, or a finite decimal `mant · 10 ^ sc` given by an integer
mantissa and scale (so `"2.5"` parses to mantissa `25`, scale `-1`). -/
inductive JsParsed where
  | nan
  | inf
  | neginf
  | dec (mant : Int) (sc : Int)
deriving DecidableEq

/-- JavaScript unary minus on a parsed numeric literal. -/
def negP : JsParsed → JsParsed
  | .nan => .nan
  | .inf => .neginf
  | .neginf => .inf
  | .dec m sc => .dec (-m) sc

/-- The whitespace and line-terminator characters trimmed by
`Number(string)` (ASCII whitespace, NBSP, the BOM, and the U+2028/U+2029
line separators; the remaining Unicode category-Zs spaces, equally trimmed
by JavaScript, do not occur in HTTP header values and are left out). -/
def isJsWhitespace (c : Char) : Bool :=
  c = ' ' || c = '\t' || c = '\n' || c = '\r' || c = '\x0b' || c = '\x0c'
    || c = '\u00A0' || c = '\uFEFF' || c = '\u2028' || c = '\u2029'

/-- Leading and trailing whitespace trimming of `Number(string)`. -/
def trimJsWs (cs : List Char) : List Char :=
  ((cs.dropWhile isJsWhitespace).reverse.dropWhile isJsWhitespace).reverse

/-- Value of a decimal digit character. -/
def digitVal (c : Char) : Int := (c.toNat : Int) - 48

/-- Value of a hexadecimal digit character. -/
def hexDigitVal (c : Char) : Int :=
  if c.isDigit then digitVal c
  else if 'a' ≤ c ∧ c ≤ 'f' then (c.toNat : Int) - 87
  else (c.toNat : Int) - 55

def isOctalDigitB (c : Char) : Bool := '0' ≤ c && c ≤ '7'

def isBinaryDigitB (c : Char) : Bool := c = '0' || c = '1'

def isHexDigitB (c : Char) : Bool :=
  c.isDigit || ('a' ≤ c && c ≤ 'f') || ('A' ≤ c && c ≤ 'F')

/-- Positional value of a digit string in base `b`. -/
def charsToIntBase (b : Int) (f : Char → Int) (cs : List Char) : Int :=
  cs.foldl (fun acc c => acc * b + f c) 0

/-- The `ExponentPart?` tail of a string decimal literal: empty means
exponent `0`; otherwise `e`/`E`, an optional sign, and at least one digit,
consuming the whole remainder. -/
def parseExpPart : List Char → Option Int
  | [] => some 0
  | c :: rest =>
      if c = 'e' ∨ c = 'E' then
        match rest with
        | '+' :: ds =>
            if !ds.isEmpty && ds.all Char.isDigit then
              some (charsToIntBase 10 digitVal ds)
            else none
        | '-' :: ds =>
            if !ds.isEmpty && ds.all Char.isDigit then
              some (-(charsToIntBase 10 digitVal ds))
            else none
        | ds =>
            if !ds.isEmpty && ds.all Char.isDigit then
              some (charsToIntBase 10 digitVal ds)
            else none
      else none

/-- Mantissa and scale of the decimal literal `ip . fp e^exp`. -/
def decPair (ip fp : List Char) (e : Int) : Int × Int :=
  (charsToIntBase 10 digitVal (ip ++ fp), e - (fp.length : Int))

/-- `StrUnsignedDecimalLiteral` without the `Infinity` form:
`digits [. digits?] [exp]` or `. digits [exp]`. -/
def parseDec (cs : List Char) : Option (Int × Int) :=
  let ip := cs.takeWhile Char.isDigit
  let rest1 := cs.dropWhile Char.isDigit
  match rest1 with
  | '.' :: rest2 =>
      let fp := rest2.takeWhile Char.isDigit
      let rest3 := rest2.dropWhile Char.isDigit
      if ip.isEmpty && fp.isEmpty then none
      else (parseExpPart rest3).map (fun e => decPair ip fp e)
  | _ =>
      if ip.isEmpty then none
      else (parseExpPart rest1).map (fun e => decPair ip [] e)

/-- `StrUnsignedDecimalLiteral` (what may follow an optional sign):
`Infinity` or a decimal literal. -/
def parseUnsignedJs (cs : List Char) : Option JsParsed :=
  if cs = "Infinity".toList then some .inf
  else (parseDec cs).map (fun p => .dec p.1 p.2)

/-- The unsigned non-decimal integer literals `0x…`/`0o…`/`0b…` (no sign
allowed before these in a string numeric literal). -/
def parseNonDec : List Char → Option Int
  | '0' :: x :: ds =>
      if (x = 'x' || x = 'X') && !ds.isEmpty && ds.all isHexDigitB then
        some (charsToIntBase 16 hexDigitVal ds)
      else if (x = 'o' || x = 'O') && !ds.isEmpty && ds.all isOctalDigitB then
        some (charsToIntBase 8 digitVal ds)
      else if (x = 'b' || x = 'B') && !ds.isEmpty && ds.all isBinaryDigitB then
        some (charsToIntBase 2 digitVal ds)
      else none
  | _ => none

/-- Parsing phase of JavaScript `Number(s)` on strings: trim whitespace; an
empty remainder is `0`; an optional `+`/`-` sign followed by `Infinity` or a
decimal literal (integer, fractional and/or exponent parts); unsigned
hexadecimal, octal and binary integer literals; anything else is `NaN`. -/
def jsParseNumber (s : String) : JsParsed :=
  match trimJsWs s.toList with
  | [] => .dec 0 0
  | '+' :: rest => (parseUnsignedJs rest).getD .nan
  | '-' :: rest => ((parseUnsignedJs rest).map negP).getD .nan
  | t =>
      match parseNonDec t with
      | some v => .dec v 0
      | none => (parseUnsignedJs t).getD .nan

/-- The rational `m · 10 ^ sc`. -/
def decScale (m sc : Int) : ℚ :=
  if 0 ≤ sc then ((m * 10 ^ sc.toNat : Int) : ℚ)
  else (m : ℚ) / ((10 ^ (-sc).toNat : Int) : ℚ)

/-- The numeric value of a parsed literal. -/
def jsValue : JsParsed → JsNum
  | .nan => .nan
  | .inf => .inf
  | .neginf => .neginf
  | .dec m sc => .val (decScale m sc)

/-- JavaScript `Number(s)` on strings: the value of the parsed literal. -/
def jsNumberOfString (s : String) : JsNum :=
  jsValue (jsParseNumber s)

/-- The seconds value of line 69: `retryAfter ? Number(retryAfter) : 1`.
`headers.get` yields `null` for an absent header; `null` and the empty
string are falsy, so both default to `1`. -/
def retryWaitSec (retryAfter : Option String) : JsNum :=
  match retryAfter with
  | none => .val 1
  | some s => if s = "" then .val 1 else jsNumberOfString s

/-- `waitSec * 1000` in JavaScript arithmetic (`NaN` and the infinities are
absorbing). -/
def jsSecToMs : JsNum → JsNum
  | .nan => .nan
  | .inf => .inf
  | .neginf => .neginf
  | .val q => .val (q * 1000)

/-- The delay actually applied by `setTimeout(resolve, d)`: a non-finite or
negative delay is coerced to `0` ms. -/
def setTimeoutDelay : JsNum → ℚ
  | .val q => if q < 0 then 0 else q
  | _ => 0

/-- The effective backoff delay in milliseconds for a 429 response. -/
def backoffDelayMs (retryAfter : Option String) : ℚ :=
  setTimeoutDelay (jsSecToMs (retryWaitSec retryAfter))

/-- Message of the non-429 failure path (lines 76-78):
`` `Notion API error (${res.status} ${res.statusText}): ${errorBody}` ``
with a failed body read replaced by the empty string. -/
def errorMessage (r : HttpResponse) : String :=
  "Notion API error (" ++ toString r.status ++ " " ++ r.statusText ++ "): "
    ++ r.bodyText.getD ""

/-- Outcome of a `request` call that has completed: the decoded payload or
the raised error message, together with the sequence of wire requests issued
(one per attempt, all identical) and the backoff delays slept between
attempts. -/
structure RequestResult where
  outcome : Except String JsonVal
  sends : List WireRequest
  waitsMs : List ℚ

/-- The recursive `request` method run against a scripted list of responses
(response `k` answers attempt `k`).  A 429 sleeps the server-supplied or
default backoff and re-issues the identical request; a 2xx returns the
decoded payload; anything else raises the formatted error.  `none` means the
script ran out while the call was still retrying (the call has not
completed). -/
def runRequest (apiKey method path : String) (body : Option JsonVal) :
    List HttpResponse → Option RequestResult
  | [] => none
  | r :: rest =>
      let w := buildWire apiKey method path body
      if r.status = 429 then
        match runRequest apiKey method path body rest with
        | none => none
        | some res =>
            some { outcome := res.outcome, sends := w :: res.sends,
                   waitsMs := backoffDelayMs r.retryAfter :: res.waitsMs }
      else if resOk r then
        some { outcome := .ok r.jsonBody, sends := [w], waitsMs := [] }
      else
        some { outcome := .error (errorMessage r), sends := [w], waitsMs := [] }

/-- `needle` occurs as a contiguous substring of `hay`. -/
def containsStr (hay needle : String) : Prop :=
  ∃ pre post, hay = pre ++ needle ++ post

/-! ## Client construction (`NotionClient.constructor`, lines 14-23) -/

/-- The construction error message (lines 17-20). -/
def missingKeyMessage : String :=
  "NOTION_API_KEY environment variable is not set. "
    ++ "Create an integration at https://www.notion.so/my-integrations"

/-- `new NotionClient()` with the `NOTION_API_KEY` environment variable
modelled as `Option String` (`none` = unset).  The `if (!key)` guard throws
for an unset *or empty* value; otherwise the key is stored and no request is
made. -/
def notionClientInit (env : Option String) : Except String String :=
  match env with
  | none => .error missingKeyMessage
  | some k => if k = "" then .error missingKeyMessage else .ok k

/-! ## Tool adapter layer (`tools.ts`)

`registerTools` declares the thirteen tools and a *lazy* `getClient`
(`let _client = null; const getClient = () => { if (!_client) _client = new
NotionClient(); return _client; }`): the client is constructed inside the
first tool handler's `try` block, not when the server starts. -/

/-- The text content of a tool response: either the pretty-printed
serialization of a JSON document (`JSON.stringify(v, null, 2)`, kept as the
document itself) or a plain string. -/
inductive ToolContent where
  | serialized (v : JsonVal)
  | plain (s : String)

/-- A tool response envelope: one text content block, plus the `isError`
marker. -/
structure ToolEnvelope where
  content : ToolContent
  isError : Bool

/-- `errorResult` (`tools.ts`): `{ content: [{ type: "text", text:
"Error: " + message }], isError: true }`. -/
def errorResult (message : String) : ToolEnvelope :=
  { content := .plain ("Error: " ++ message), isError := true }

/-- `registerTools` itself: registering the thirteen tools touches neither
the environment nor the network (client construction is deferred into the
handlers), so server startup always succeeds. -/
def registerToolsStartup (_env : Option String) : Except String Unit :=
  .ok ()

/-- The shape shared by every tool handler: `try { const result = await
getClient().method(...); return envelope(result); } catch (e) { return
errorResult(message(e)); }`.  `call` is the client method invoked with the
constructed client's key, returning the wire requests it issued and its
outcome; `render` builds the tool's success envelope. -/
def guardedInvoke {α : Type} (env : Option String)
    (call : String → List WireRequest × Except String α)
    (render : α → ToolEnvelope) : ToolEnvelope × List WireRequest :=
  match notionClientInit env with
  | .error e => (errorResult e, [])
  | .ok key =>
      let r := call key
      match r.2 with
      | .error e => (errorResult e, r.1)
      | .ok v => (render v, r.1)

/-! ### Success envelopes of the individual tools -/

/-- The decoded shape of a listing response as the handlers access it:
`result.results`, `result.has_more`, `result.next_cursor`. -/
structure NotionListing where
  object : String
  results : List JsonVal
  has_more : Bool
  next_cursor : Option String

/-- `next_cursor` serializes as a string or JSON `null`. -/
def jsonOfCursor : Option String → JsonVal
  | none => .null
  | some s => .str s

/-- `notion_search` success payload: `{ total, hasMore, nextCursor, results }`. -/
def searchEnvelope (r : NotionListing) : ToolEnvelope :=
  { content := .serialized (.obj
      [("total", .num r.results.length), ("hasMore", .bool r.has_more),
       ("nextCursor", jsonOfCursor r.next_cursor), ("results", .arr r.results)])
    isError := false }

/-- `notion_query_database` success payload:
`{ total, hasMore, nextCursor, results }`. -/
def queryDatabaseEnvelope (r : NotionListing) : ToolEnvelope :=
  { content := .serialized (.obj
      [("total", .num r.results.length), ("hasMore", .bool r.has_more),
       ("nextCursor", jsonOfCursor r.next_cursor), ("results", .arr r.results)])
    isError := false }

/-- `notion_get_block_children` success payload:
`{ total, hasMore, nextCursor, blocks }`. -/
def getBlockChildrenEnvelope (r : NotionListing) : ToolEnvelope :=
  { content := .serialized (.obj
      [("total", .num r.results.length), ("hasMore", .bool r.has_more),
       ("nextCursor", jsonOfCursor r.next_cursor), ("blocks", .arr r.results)])
    isError := false }

/-- `notion_list_users` success payload (`tools.ts` line with
`JSON.stringify({ total, hasMore, users: result.results })`): it has *no*
`nextCursor` field, unlike the other listing tools. -/
def listUsersEnvelope (r : NotionListing) : ToolEnvelope :=
  { content := .serialized (.obj
      [("total", .num r.results.length), ("hasMore", .bool r.has_more),
       ("users", .arr r.results)])
    isError := false }

/-- `notion_create_database` success payload: `{ success: true, database }`. -/
def createDatabaseEnvelope (database : JsonVal) : ToolEnvelope :=
  { content := .serialized (.obj [("success", .bool true), ("database", database)])
    isError := false }

/-- `notion_create_page` success payload: `{ success: true, page }`. -/
def createPageEnvelope (page : JsonVal) : ToolEnvelope :=
  { content := .serialized (.obj [("success", .bool true), ("page", page)])
    isError := false }

/-- `notion_update_page` success payload: `{ success: true, page }`. -/
def updatePageEnvelope (page : JsonVal) : ToolEnvelope :=
  { content := .serialized (.obj [("success", .bool true), ("page", page)])
    isError := false }

/-- `notion_append_block_children` success payload:
`{ success: true, blocks: result.results }`. -/
def appendBlockChildrenEnvelope (blocks : List JsonVal) : ToolEnvelope :=
  { content := .serialized (.obj [("success", .bool true), ("blocks", .arr blocks)])
    isError := false }

/-- `notion_delete_block` success payload:
`{ success: true, archived: result.archived, block: result }`. -/
def deleteBlockEnvelope (archived : Bool) (block : JsonVal) : ToolEnvelope :=
  { content := .serialized (.obj
      [("success", .bool true), ("archived", .bool archived), ("block", block)])
    isError := false }

/-- The field names of a success envelope's serialized object. -/
def envelopeKeys (e : ToolEnvelope) : List String :=
  match e.content with
  | .serialized (.obj fields) => fields.map (fun p => p.1)
  | _ => []

/-! ## C3: throttling retry -/

/-- C3.  A 429 response is never surfaced: (i) for any burst of 429
responses followed by a success, `request` re-issues the identical wire
request once per 429 (no retry-count cap: the burst is arbitrary), sleeps
the per-response backoff, and finally returns the success payload unchanged;
(ii) a script of nothing but 429s never produces a caller-visible outcome —
the call is still retrying when the script ends. -/
theorem request_retries_429_until_success (key m p : String) (b : Option JsonVal) :
    (∀ (burst : List HttpResponse) (ok : HttpResponse),
      (∀ r ∈ burst, r.status = 429) → resOk ok = true →
      runRequest key m p b (burst ++ [ok]) =
        some { outcome := .ok ok.jsonBody,
               sends := List.replicate (burst.length + 1) (buildWire key m p b),
               waitsMs := burst.map (fun r => backoffDelayMs r.retryAfter) })
    ∧ (∀ script : List HttpResponse,
        (∀ r ∈ script, r.status = 429) → runRequest key m p b script = none) := by
  constructor
  · intro burst ok
    induction burst with
    | nil =>
        intro _ hok
        have h429 : ¬ ok.status = 429 := by
          simp only [resOk, Bool.and_eq_true, decide_eq_true_eq] at hok
          omega
        simp only [List.nil_append, runRequest]
        rw [if_neg h429, if_pos hok]
        rfl
    | cons r rest ih =>
        intro hb hok
        have hr : r.status = 429 := hb r (List.mem_cons_self r rest)
        have ih' := ih (fun x hx => hb x (List.mem_cons_of_mem r hx)) hok
        simp only [List.cons_append, runRequest, List.append_eq]
        rw [if_pos hr, ih']
        simp [List.replicate_succ]
  · intro script
    induction script with
    | nil => intro _; rfl
    | cons r rest ih =>
        intro hb
        have hr : r.status = 429 := hb r (List.mem_cons_self r rest)
        have ih' := ih (fun x hx => hb x (List.mem_cons_of_mem r hx))
        simp only [runRequest]
        rw [if_pos hr, ih']

/-- A simulated 429 response carrying `Retry-After: 2`. -/
def r429Example : HttpResponse :=
  { status := 429, statusText := "Too Many Requests", retryAfter := some "2",
    bodyText := some "", jsonBody := .obj [] }

/-- A simulated 200 response with a recognizable payload. -/
def r200Example : HttpResponse :=
  { status := 200, statusText := "OK", retryAfter := none,
    bodyText := some "", jsonBody := .str "payload" }

/-- Witness for C3: the simulated sequence `[429 (Retry-After: 2), 200]`
performs exactly one retry (two identical sends), sleeps 2000 ms, and
returns the 200 payload unchanged. -/
theorem request_retries_429_until_success_witness :
    (∀ r ∈ [r429Example], r.status = 429)
    ∧ resOk r200Example = true
    ∧ runRequest "k" "POST" "/search" (some (.obj []))
        [r429Example, r200Example] =
        some { outcome := .ok (JsonVal.str "payload"),
               sends := List.replicate 2
                 (buildWire "k" "POST" "/search" (some (.obj []))),
               waitsMs := [2000] } := by
  refine ⟨?_, rfl, ?_⟩
  · intro r hr
    simp only [List.mem_singleton] at hr
    subst hr
    rfl
  · have h := (request_retries_429_until_success "k" "POST" "/search"
      (some (.obj []))).1 [r429Example] r200Example
      (by
        intro r hr
        simp only [List.mem_singleton] at hr
        subst hr
        rfl)
      rfl
    have hw : backoffDelayMs (some "2") = 2000 := by
      have hp : jsNumberOfString "2" = JsNum.val 2 := by
        rw [jsNumberOfString, show jsParseNumber "2" = JsParsed.dec 2 0 from by decide]
        norm_num [jsValue, decScale]
      show setTimeoutDelay (jsSecToMs (retryWaitSec (some "2"))) = 2000
      rw [show retryWaitSec (some "2") = jsNumberOfString "2" from rfl, hp]
      norm_num [jsSecToMs, setTimeoutDelay]
    rw [show [r429Example, r200Example] = [r429Example] ++ [r200Example] from rfl, h]
    simp only [List.map_cons, List.map_nil]
    rw [show r429Example.retryAfter = some "2" from rfl, hw]
    rfl

/-! ## C4: the retry delay -/

/-- C4 counterexample: a `Retry-After` header that is present but not
parseable as a number (`"abc"`) does *not* default to 1 second:
`Number("abc")` is NaN, so the computed wait is NaN and the timer fires
after 0 ms (while the absent header does give 1 second = 1000 ms). -/
theorem retry_delay_unparseable_counterexample :
    retryWaitSec (some "abc") ≠ JsNum.val 1
    ∧ retryWaitSec (some "abc") = JsNum.nan
    ∧ backoffDelayMs (some "abc") = 0
    ∧ backoffDelayMs none = 1000 := by
  have h1 : retryWaitSec (some "abc") = JsNum.nan := by
    show (if ("abc" : String) = "" then JsNum.val 1 else jsNumberOfString "abc")
        = JsNum.nan
    rw [if_neg (by decide : ¬ (("abc" : String) = ""))]
    rw [jsNumberOfString, show jsParseNumber "abc" = JsParsed.nan from by decide]
    rfl
  refine ⟨?_, h1, ?_, ?_⟩
  · rw [h1]
    intro hcontra
    exact JsNum.noConfusion hcontra
  · unfold backoffDelayMs
    rw [h1]
    rfl
  · show setTimeoutDelay (jsSecToMs (JsNum.val 1)) = 1000
    norm_num [jsSecToMs, setTimeoutDelay]

/-- C4 (amended).  The retry wait equals the server-supplied `Retry-After`
value in seconds whenever the header is present and parses as a JavaScript
number — including whitespace-padded, signed, fractional and exponent forms
(`"2.5"` gives 2.5 s = 2500 ms, `" 2"` and `"+2"` give 2 s, `"1e3"` gives
1000 s); it defaults to exactly 1 second when the header is absent or the
empty string; and when the header is present, non-empty and unparseable
(`Number` gives NaN, e.g. `"abc"`), the computed wait is NaN, which the
timer treats as a 0 ms delay, not 1 second. -/
theorem retry_delay_rule :
    retryWaitSec none = JsNum.val 1
    ∧ backoffDelayMs none = 1000
    ∧ retryWaitSec (some "") = JsNum.val 1
    ∧ (∀ (s : String) (q : ℚ), s ≠ "" → jsNumberOfString s = JsNum.val q →
        retryWaitSec (some s) = JsNum.val q
        ∧ (0 ≤ q → backoffDelayMs (some s) = q * 1000))
    ∧ (∀ s : String, s ≠ "" → jsNumberOfString s = JsNum.nan →
        retryWaitSec (some s) = JsNum.nan ∧ backoffDelayMs (some s) = 0)
    ∧ jsParseNumber "2.5" = JsParsed.dec 25 (-1)
    ∧ jsNumberOfString "2.5" = JsNum.val (5 / 2)
    ∧ backoffDelayMs (some "2.5") = 2500
    ∧ backoffDelayMs (some " 2") = 2000
    ∧ backoffDelayMs (some "+2") = 2000
    ∧ backoffDelayMs (some "1e3") = 1000000
    ∧ backoffDelayMs (some "-1") = 0
    ∧ jsNumberOfString "abc" = JsNum.nan := by
  have hval : ∀ (s : String) (q : ℚ), s ≠ "" → jsNumberOfString s = JsNum.val q →
      retryWaitSec (some s) = JsNum.val q := by
    intro s q hs hq
    show (if s = "" then JsNum.val 1 else jsNumberOfString s) = JsNum.val q
    rw [if_neg hs, hq]
  have hbo : ∀ (s : String) (q : ℚ), s ≠ "" → jsNumberOfString s = JsNum.val q →
      0 ≤ q → backoffDelayMs (some s) = q * 1000 := by
    intro s q hs hq hq0
    unfold backoffDelayMs
    rw [hval s q hs hq]
    show (if q * 1000 < 0 then (0 : ℚ) else q * 1000) = q * 1000
    rw [if_neg (not_lt.mpr (mul_nonneg hq0 (by norm_num)))]
  have hv : ∀ (s : String) (m sc : Int), jsParseNumber s = JsParsed.dec m sc →
      jsNumberOfString s = JsNum.val (decScale m sc) := by
    intro s m sc hp
    rw [jsNumberOfString, hp]
    rfl
  have h25 : jsNumberOfString "2.5" = JsNum.val (5 / 2) := by
    rw [hv "2.5" 25 (-1) (by decide)]
    norm_num [decScale]
  have hsp2 : jsNumberOfString " 2" = JsNum.val 2 := by
    rw [hv " 2" 2 0 (by decide)]
    norm_num [decScale]
  have hp2 : jsNumberOfString "+2" = JsNum.val 2 := by
    rw [hv "+2" 2 0 (by decide)]
    norm_num [decScale]
  have he3 : jsNumberOfString "1e3" = JsNum.val 1000 := by
    rw [hv "1e3" 1 3 (by decide)]
    norm_num [decScale, show Int.toNat 3 = 3 from rfl]
  have hm1 : jsNumberOfString "-1" = JsNum.val (-1) := by
    rw [hv "-1" (-1) 0 (by decide)]
    norm_num [decScale]
  have habc : jsNumberOfString "abc" = JsNum.nan := by
    rw [jsNumberOfString, show jsParseNumber "abc" = JsParsed.nan from by decide]
    rfl
  refine ⟨rfl, ?_, rfl, fun s q hs hq => ⟨hval s q hs hq, hbo s q hs hq⟩,
    ?_, by decide, h25, ?_, ?_, ?_, ?_, ?_, habc⟩
  · show setTimeoutDelay (jsSecToMs (JsNum.val 1)) = 1000
    norm_num [jsSecToMs, setTimeoutDelay]
  · intro s hs hn
    have h1 : retryWaitSec (some s) = JsNum.nan := by
      show (if s = "" then JsNum.val 1 else jsNumberOfString s) = JsNum.nan
      rw [if_neg hs, hn]
    refine ⟨h1, ?_⟩
    unfold backoffDelayMs
    rw [h1]
    rfl
  · rw [hbo "2.5" (5 / 2) (by decide) h25 (by norm_num)]
    norm_num
  · rw [hbo " 2" 2 (by decide) hsp2 (by norm_num)]
    norm_num
  · rw [hbo "+2" 2 (by decide) hp2 (by norm_num)]
    norm_num
  · rw [hbo "1e3" 1000 (by decide) he3 (by norm_num)]
    norm_num
  · unfold backoffDelayMs
    rw [hval "-1" (-1) (by decide) hm1]
    show (if ((-1 : ℚ)) * 1000 < 0 then (0 : ℚ) else (-1) * 1000) = 0
    norm_num

/-- Witness for C4's amended rule at the concrete headers `"2.5"` (present
and parseable, fractional) and `"abc"` (present and unparseable). -/
theorem retry_delay_rule_witness :
    ("2.5" ≠ "" ∧ jsNumberOfString "2.5" = JsNum.val (5 / 2)
      ∧ (0 ≤ (5 / 2 : ℚ))
      ∧ retryWaitSec (some "2.5") = JsNum.val (5 / 2)
      ∧ backoffDelayMs (some "2.5") = (5 / 2 : ℚ) * 1000)
    ∧ ("abc" ≠ "" ∧ jsNumberOfString "abc" = JsNum.nan
      ∧ retryWaitSec (some "abc") = JsNum.nan
      ∧ backoffDelayMs (some "abc") = 0) := by
  obtain ⟨-, -, -, hD, hE, -, h25, -, -, -, -, -, habc⟩ := retry_delay_rule
  refine ⟨⟨by decide, h25, by norm_num, (hD "2.5" (5 / 2) (by decide) h25).1,
      (hD "2.5" (5 / 2) (by decide) h25).2 (by norm_num)⟩,
    ⟨by decide, habc, (hE "abc" (by decide) habc).1,
      (hE "abc" (by decide) habc).2⟩⟩

/-! ## C5: non-429 failures -/

/-- C5.  A response that is neither 429 nor 2xx makes the call fail
immediately with a single error whose message carries the numeric status
code, the status text and the raw body text; exactly one request is sent
(no retry, the rest of the script is never consumed), and a failed body
read (`none`) is treated as the empty string. -/
theorem non429_error_passthrough (key m p : String) (b : Option JsonVal)
    (r : HttpResponse) (rest : List HttpResponse)
    (h429 : r.status ≠ 429) (hok : resOk r = false) :
    runRequest key m p b (r :: rest) =
      some { outcome := .error (errorMessage r),
             sends := [buildWire key m p b], waitsMs := [] }
    ∧ containsStr (errorMessage r) (toString r.status)
    ∧ containsStr (errorMessage r) r.statusText
    ∧ containsStr (errorMessage r) (r.bodyText.getD "")
    ∧ errorMessage { r with bodyText := none } =
        errorMessage { r with bodyText := some "" } := by
  refine ⟨?_, ?_, ?_, ?_, rfl⟩
  · simp only [runRequest]
    rw [if_neg h429]
    simp [hok]
  · exact ⟨"Notion API error (",
      " " ++ r.statusText ++ "): " ++ r.bodyText.getD "",
      by simp [errorMessage, String.append_assoc]⟩
  · exact ⟨"Notion API error (" ++ toString r.status ++ " ",
      "): " ++ r.bodyText.getD "",
      by simp [errorMessage, String.append_assoc]⟩
  · exact ⟨"Notion API error (" ++ toString r.status ++ " "
        ++ r.statusText ++ "): ", "",
      by simp [errorMessage, String.append_assoc]⟩

/-- A simulated 404 response with body text `not_found`. -/
def r404Example : HttpResponse :=
  { status := 404, statusText := "Not Found", retryAfter := none,
    bodyText := some "not_found", jsonBody := .null }

/-- Witness for C5: the 404 with body `"not_found"` fails with a message
containing `404` and `not_found`, after exactly one send. -/
theorem non429_error_passthrough_witness :
    r404Example.status ≠ 429
    ∧ resOk r404Example = false
    ∧ runRequest "k" "GET" "/pages/x" none [r404Example] =
        some { outcome := .error (errorMessage r404Example),
               sends := [buildWire "k" "GET" "/pages/x" none], waitsMs := [] }
    ∧ containsStr (errorMessage r404Example) "404"
    ∧ containsStr (errorMessage r404Example) "not_found" := by
  have h := non429_error_passthrough "k" "GET" "/pages/x" none r404Example []
    (by decide) (by decide)
  exact ⟨by decide, by decide, h.1, h.2.1, h.2.2.2.1⟩

/-! ## C6: missing credential -/

/-- C6 counterexample: with `NOTION_API_KEY` unset, registering the tools
(server startup) still succeeds, and a tool invocation is *served*: the
handler catches the construction error and returns an error envelope (with
the error marker set and the construction message), rather than the failure
being fatal at startup. -/
theorem missing_credential_not_fatal_at_startup :
    registerToolsStartup none = Except.ok ()
    ∧ (guardedInvoke none (fun _ => ([], Except.ok ()))
        (fun _ : Unit => { content := .plain "", isError := false })).1.isError
        = true
    ∧ (guardedInvoke none (fun _ => ([], Except.ok ()))
        (fun _ : Unit => { content := .plain "", isError := false })).1.content
        = ToolContent.plain ("Error: " ++ missingKeyMessage) :=
  ⟨rfl, rfl, rfl⟩

/-- C6 (amended).  With the credential environment variable unset (or empty),
client construction fails immediately with the configuration error message;
construction is deferred to the first tool invocation, where the handler
catches the error and returns an error envelope without ever issuing a wire
request — so no tool invocation can succeed, but the failure is surfaced
per-invocation rather than fatally at startup. -/
theorem missing_credential_lazy_failure :
    notionClientInit none = Except.error missingKeyMessage
    ∧ notionClientInit (some "") = Except.error missingKeyMessage
    ∧ (∀ env : Option String, registerToolsStartup env = Except.ok ())
    ∧ (∀ (α : Type) (call : String → List WireRequest × Except String α)
        (render : α → ToolEnvelope),
        guardedInvoke none call render = (errorResult missingKeyMessage, [])) :=
  ⟨rfl, rfl, fun _ => rfl, fun _ _ _ => rfl⟩

/-! ## C7 and C10: optional-argument handling -/

theorem hasKey_append (a b : List (String × JsonVal)) (k : String) :
    hasKey (a ++ b) k = (hasKey a k || hasKey b k) :=
  List.any_append

theorem hasKey_optStrField_of_ne {k' k : String} (h : k' ≠ k)
    (v : Option String) : hasKey (optStrField k' v) k = false := by
  cases v with
  | none => rfl
  | some s =>
      unfold optStrField
      by_cases hs : s = "" <;> simp [hs, hasKey, h]

theorem hasKey_optValField_of_ne {k' k : String} (h : k' ≠ k)
    (v : Option JsonVal) : hasKey (optValField k' v) k = false := by
  cases v with
  | none => rfl
  | some x =>
      unfold optValField
      by_cases hx : jsTruthy x = true <;> simp [hx, hasKey, h]

theorem hasKey_optIntField_of_ne {k' k : String} (h : k' ≠ k)
    (v : Option Int) : hasKey (optIntField k' v) k = false := by
  cases v with
  | none => rfl
  | some n =>
      unfold optIntField
      by_cases hn : n = 0 <;> simp [hn, hasKey, h]

/-- Whether the assembled query-parameter list contains an entry whose text
begins with the given `name=` prefix. -/
def hasParam (params : List String) (pre : String) : Bool :=
  params.any (fun prm => pre.toList.isPrefixOf prm.toList)

theorem hasParam_append (a b : List String) (n : String) :
    hasParam (a ++ b) n = (hasParam a n || hasParam b n) :=
  List.any_append

/-- A `page_size=...` query parameter never carries the `start_cursor=`
name, whatever the page size. -/
theorem hasParam_pageSize_not_startCursor (ps : Option Int) :
    hasParam (pageSizeParam ps) "start_cursor=" = false := by
  cases ps with
  | none => rfl
  | some n =>
      unfold pageSizeParam
      dsimp only
      by_cases hn : n = 0
      · rw [if_pos hn]
        rfl
      · rw [if_neg hn]
        generalize toString n = t
        obtain ⟨d⟩ := t
        rfl

/-- A `start_cursor=...` query parameter never carries the `page_size=`
name, whatever the cursor. -/
theorem hasParam_cursor_not_pageSize (sc : Option String) :
    hasParam (cursorParam sc) "page_size=" = false := by
  cases sc with
  | none => rfl
  | some s =>
      unfold cursorParam
      dsimp only
      by_cases hs : s = ""
      · rw [if_pos hs]
        rfl
      · rw [if_neg hs]
        obtain ⟨d⟩ := s
        rfl

/-- C7.  Omitting an optional argument omits the corresponding body or query
field entirely, for every per-operation method: each body conjunct fixes one
optional argument to "absent" and states that the assembled body has no such
field (regardless of the other arguments); for the query-parameter methods
(`getBlockChildren`, `listUsers`), omitting `startCursor` leaves no
`start_cursor=` parameter and the path carries only what `pageSize`
contributes (and symmetrically), again with the other argument arbitrary;
and `search` called with only a (non-empty) query string produces a body
holding solely the `query` field. -/
theorem optional_fields_omitted_when_absent :
    (∀ q : String, q ≠ "" →
      searchBody (some q) none none none none = [("query", JsonVal.str q)])
    ∧ (∀ f so sc ps, hasKey (searchBody none f so sc ps) "query" = false)
    ∧ (∀ q so sc ps, hasKey (searchBody q none so sc ps) "filter" = false)
    ∧ (∀ q f sc ps, hasKey (searchBody q f none sc ps) "sort" = false)
    ∧ (∀ q f so ps, hasKey (searchBody q f so none ps) "start_cursor" = false)
    ∧ (∀ q f so sc, hasKey (searchBody q f so sc none) "page_size" = false)
    ∧ (∀ so sc ps, hasKey (queryDatabaseBody none so sc ps) "filter" = false)
    ∧ (∀ f sc ps, hasKey (queryDatabaseBody f none sc ps) "sorts" = false)
    ∧ (∀ f so ps, hasKey (queryDatabaseBody f so none ps) "start_cursor" = false)
    ∧ (∀ f so sc, hasKey (queryDatabaseBody f so sc none) "page_size" = false)
    ∧ (∀ a, hasKey (updatePageBody none a) "properties" = false)
    ∧ (∀ p, hasKey (updatePageBody p none) "archived" = false)
    ∧ (∀ pid pt props,
        hasKey (createPageBody pid pt props none) "children" = false)
    ∧ (∀ id : String,
        getBlockChildrenPath id none none = "/blocks/" ++ id ++ "/children")
    ∧ listUsersPath none none = "/users"
    ∧ (∀ ps, hasParam (cursorParam none ++ pageSizeParam ps)
        "start_cursor=" = false)
    ∧ (∀ sc, hasParam (cursorParam sc ++ pageSizeParam none)
        "page_size=" = false)
    ∧ (∀ (id : String) (ps : Option Int), getBlockChildrenPath id none ps
        = withParams ("/blocks/" ++ id ++ "/children") (pageSizeParam ps))
    ∧ (∀ (id : String) (sc : Option String), getBlockChildrenPath id sc none
        = withParams ("/blocks/" ++ id ++ "/children") (cursorParam sc))
    ∧ (∀ ps : Option Int,
        listUsersPath none ps = withParams "/users" (pageSizeParam ps))
    ∧ (∀ sc : Option String,
        listUsersPath sc none = withParams "/users" (cursorParam sc)) := by
  refine ⟨?_, ?_, ?_, ?_, ?_, ?_, ?_, ?_, ?_, ?_, ?_, ?_, ?_, ?_, rfl,
    ?_, ?_, ?_, ?_, ?_, ?_⟩
  · intro q hq
    unfold searchBody optStrField
    dsimp only
    rw [if_neg hq]
    rfl
  · intro f so sc ps
    simp only [searchBody, hasKey_append,
      hasKey_optValField_of_ne (by decide : "filter" ≠ "query"),
      hasKey_optValField_of_ne (by decide : "sort" ≠ "query"),
      hasKey_optStrField_of_ne (by decide : "start_cursor" ≠ "query"),
      hasKey_optIntField_of_ne (by decide : "page_size" ≠ "query")]
    rfl
  · intro q so sc ps
    simp only [searchBody, hasKey_append,
      hasKey_optStrField_of_ne (by decide : "query" ≠ "filter"),
      hasKey_optValField_of_ne (by decide : "sort" ≠ "filter"),
      hasKey_optStrField_of_ne (by decide : "start_cursor" ≠ "filter"),
      hasKey_optIntField_of_ne (by decide : "page_size" ≠ "filter")]
    rfl
  · intro q f sc ps
    simp only [searchBody, hasKey_append,
      hasKey_optStrField_of_ne (by decide : "query" ≠ "sort"),
      hasKey_optValField_of_ne (by decide : "filter" ≠ "sort"),
      hasKey_optStrField_of_ne (by decide : "start_cursor" ≠ "sort"),
      hasKey_optIntField_of_ne (by decide : "page_size" ≠ "sort")]
    rfl
  · intro q f so ps
    simp only [searchBody, hasKey_append,
      hasKey_optStrField_of_ne (by decide : "query" ≠ "start_cursor"),
      hasKey_optValField_of_ne (by decide : "filter" ≠ "start_cursor"),
      hasKey_optValField_of_ne (by decide : "sort" ≠ "start_cursor"),
      hasKey_optIntField_of_ne (by decide : "page_size" ≠ "start_cursor")]
    rfl
  · intro q f so sc
    simp only [searchBody, hasKey_append,
      hasKey_optStrField_of_ne (by decide : "query" ≠ "page_size"),
      hasKey_optValField_of_ne (by decide : "filter" ≠ "page_size"),
      hasKey_optValField_of_ne (by decide : "sort" ≠ "page_size"),
      hasKey_optStrField_of_ne (by decide : "start_cursor" ≠ "page_size")]
    rfl
  · intro so sc ps
    simp only [queryDatabaseBody, hasKey_append,
      hasKey_optValField_of_ne (by decide : "sorts" ≠ "filter"),
      hasKey_optStrField_of_ne (by decide : "start_cursor" ≠ "filter"),
      hasKey_optIntField_of_ne (by decide : "page_size" ≠ "filter")]
    rfl
  · intro f sc ps
    simp only [queryDatabaseBody, hasKey_append,
      hasKey_optValField_of_ne (by decide : "filter" ≠ "sorts"),
      hasKey_optStrField_of_ne (by decide : "start_cursor" ≠ "sorts"),
      hasKey_optIntField_of_ne (by decide : "page_size" ≠ "sorts")]
    rfl
  · intro f so ps
    simp only [queryDatabaseBody, hasKey_append,
      hasKey_optValField_of_ne (by decide : "filter" ≠ "start_cursor"),
      hasKey_optValField_of_ne (by decide : "sorts" ≠ "start_cursor"),
      hasKey_optIntField_of_ne (by decide : "page_size" ≠ "start_cursor")]
    rfl
  · intro f so sc
    simp only [queryDatabaseBody, hasKey_append,
      hasKey_optValField_of_ne (by decide : "filter" ≠ "page_size"),
      hasKey_optValField_of_ne (by decide : "sorts" ≠ "page_size"),
      hasKey_optStrField_of_ne (by decide : "start_cursor" ≠ "page_size")]
    rfl
  · intro a
    unfold updatePageBody
    cases a with
    | none => rfl
    | some b =>
        simp only [optValField, hasKey_append]
        simp [hasKey]
  · intro p
    unfold updatePageBody
    simp only [hasKey_append,
      hasKey_optValField_of_ne (by decide : "properties" ≠ "archived")]
    rfl
  · intro pid pt props
    unfold createPageBody
    simp only [hasKey_append]
    simp [hasKey]
  · intro id
    rfl
  · intro ps
    rw [hasParam_append, hasParam_pageSize_not_startCursor]
    rfl
  · intro sc
    rw [hasParam_append, hasParam_cursor_not_pageSize]
    rfl
  · intro id ps
    rfl
  · intro id sc
    show withParams ("/blocks/" ++ id ++ "/children") (cursorParam sc ++ [])
        = withParams ("/blocks/" ++ id ++ "/children") (cursorParam sc)
    rw [List.append_nil]
  · intro ps
    rfl
  · intro sc
    show withParams "/users" (cursorParam sc ++ [])
        = withParams "/users" (cursorParam sc)
    rw [List.append_nil]

/-- Witness for C7 at the concrete query `"hello"` (and one closed omission
instance). -/
theorem optional_fields_omitted_when_absent_witness :
    ("hello" ≠ "")
    ∧ searchBody (some "hello") none none none none
        = [("query", JsonVal.str "hello")]
    ∧ hasKey (searchBody none none none none (some 5)) "query" = false :=
  ⟨by decide, optional_fields_omitted_when_absent.1 "hello" (by decide),
   optional_fields_omitted_when_absent.2.1 none none none (some 5)⟩

/-! ## C8: tool envelopes -/

/-- A concrete decoded listing result that carries a next cursor. -/
def userListExample : NotionListing :=
  { object := "list", results := [.obj [("id", .str "u1")]], has_more := true,
    next_cursor := some "cur" }

/-- C8 counterexample: even when the client result carries a next cursor,
the `notion_list_users` success envelope has no `nextCursor` field (its keys
are exactly `total`, `hasMore`, `users`), while the `notion_search` envelope
does include one. -/
theorem list_users_envelope_lacks_next_cursor :
    ("nextCursor" ∈ envelopeKeys (searchEnvelope userListExample))
    ∧ ("nextCursor" ∉ envelopeKeys (listUsersEnvelope userListExample))
    ∧ envelopeKeys (listUsersEnvelope userListExample)
        = ["total", "hasMore", "users"] :=
  ⟨by decide, by decide, rfl⟩

/-- C8 (amended).  Every failure raised by the client is caught at the tool
boundary and converted into an error envelope carrying `Error: ` plus the
failure's message and the `isError` marker, never raising further; on
success, the listing tools search / query database / get block children
serialize total count, has-more and next cursor alongside the results, the
list-users tool serializes total count and has-more (but no next cursor)
alongside the users, and every mutation tool's envelope carries the
`success` flag as its first field. -/
theorem adapter_envelope_shapes :
    (∀ (α : Type) (key : String) (sends : List WireRequest) (e : String)
        (render : α → ToolEnvelope), key ≠ "" →
        guardedInvoke (some key) (fun _ => (sends, Except.error e)) render
          = (errorResult e, sends))
    ∧ (∀ e, (errorResult e).isError = true
        ∧ (errorResult e).content = ToolContent.plain ("Error: " ++ e))
    ∧ (∀ r, envelopeKeys (searchEnvelope r)
        = ["total", "hasMore", "nextCursor", "results"]
        ∧ (searchEnvelope r).isError = false)
    ∧ (∀ r, envelopeKeys (queryDatabaseEnvelope r)
        = ["total", "hasMore", "nextCursor", "results"])
    ∧ (∀ r, envelopeKeys (getBlockChildrenEnvelope r)
        = ["total", "hasMore", "nextCursor", "blocks"])
    ∧ (∀ r, envelopeKeys (listUsersEnvelope r) = ["total", "hasMore", "users"])
    ∧ (∀ v, envelopeKeys (createDatabaseEnvelope v) = ["success", "database"])
    ∧ (∀ v, envelopeKeys (createPageEnvelope v) = ["success", "page"])
    ∧ (∀ v, envelopeKeys (updatePageEnvelope v) = ["success", "page"])
    ∧ (∀ bs, envelopeKeys (appendBlockChildrenEnvelope bs) = ["success", "blocks"])
    ∧ (∀ ar v, envelopeKeys (deleteBlockEnvelope ar v)
        = ["success", "archived", "block"]) := by
  refine ⟨?_, fun e => ⟨rfl, rfl⟩, fun r => ⟨rfl, rfl⟩, fun r => rfl,
    fun r => rfl, fun r => rfl, fun v => rfl, fun v => rfl, fun v => rfl,
    fun bs => rfl, fun ar v => rfl⟩
  intro α key sends e render hk
  unfold guardedInvoke notionClientInit
  dsimp only
  rw [if_neg hk]

/-- Witness for C8 at a concrete key and failure message. -/
theorem adapter_envelope_shapes_witness :
    ("k" ≠ "")
    ∧ guardedInvoke (some "k") (fun _ => ([], Except.error "boom"))
        (fun _ : Unit => { content := .plain "", isError := false })
        = (errorResult "boom", []) :=
  ⟨by decide,
    adapter_envelope_shapes.1 Unit "k" [] "boom"
      (fun _ => { content := .plain "", isError := false }) (by decide)⟩

/-! ## C9: the wire contract -/

/-- C9.  Every request's URL is the fixed base endpoint joined with the
operation path; every request carries the bearer credential, the fixed
API-version header and the JSON content-type header; a JSON body is attached
exactly when one is supplied *and* the method is `POST` or `PATCH` (so never
for `GET` or `DELETE`); and each of the thirteen operations uses the verb
and path of the wire-contract table. -/
theorem wire_contract_requests :
    (∀ (key method path : String) (b : Option JsonVal),
      (buildWire key method path b).url = BASE_URL ++ path
      ∧ (buildWire key method path b).authorization = "Bearer " ++ key
      ∧ (buildWire key method path b).notionVersion = "2022-06-28"
      ∧ (buildWire key method path b).contentType = "application/json"
      ∧ ((buildWire key method path b).body ≠ none ↔
          (b ≠ none ∧ (method = "POST" ∨ method = "PATCH"))))
    ∧ (∀ key q f so sc ps,
        (searchRequest key q f so sc ps).method = "POST"
        ∧ (searchRequest key q f so sc ps).url = BASE_URL ++ "/search"
        ∧ (searchRequest key q f so sc ps).body
            = some (.obj (searchBody q f so sc ps)))
    ∧ (∀ key id, (getDatabaseRequest key id).method = "GET"
        ∧ (getDatabaseRequest key id).url = BASE_URL ++ ("/databases/" ++ id)
        ∧ (getDatabaseRequest key id).body = none)
    ∧ (∀ key id f so sc ps,
        (queryDatabaseRequest key id f so sc ps).method = "POST"
        ∧ (queryDatabaseRequest key id f so sc ps).url
            = BASE_URL ++ ("/databases/" ++ id ++ "/query")
        ∧ (queryDatabaseRequest key id f so sc ps).body
            = some (.obj (queryDatabaseBody f so sc ps)))
    ∧ (∀ key pid title props,
        (createDatabaseRequest key pid title props).method = "POST"
        ∧ (createDatabaseRequest key pid title props).url
            = BASE_URL ++ "/databases"
        ∧ (createDatabaseRequest key pid title props).body
            = some (.obj (createDatabaseBody pid title props)))
    ∧ (∀ key pid pt props ch,
        (createPageRequest key pid pt props ch).method = "POST"
        ∧ (createPageRequest key pid pt props ch).url = BASE_URL ++ "/pages"
        ∧ (createPageRequest key pid pt props ch).body
            = some (.obj (createPageBody pid pt props ch)))
    ∧ (∀ key id, (getPageRequest key id).method = "GET"
        ∧ (getPageRequest key id).url = BASE_URL ++ ("/pages/" ++ id)
        ∧ (getPageRequest key id).body = none)
    ∧ (∀ key id props ar,
        (updatePageRequest key id props ar).method = "PATCH"
        ∧ (updatePageRequest key id props ar).url
            = BASE_URL ++ ("/pages/" ++ id)
        ∧ (updatePageRequest key id props ar).body
            = some (.obj (updatePageBody props ar)))
    ∧ (∀ key id, (getBlockRequest key id).method = "GET"
        ∧ (getBlockRequest key id).url = BASE_URL ++ ("/blocks/" ++ id)
        ∧ (getBlockRequest key id).body = none)
    ∧ (∀ key id sc ps,
        (getBlockChildrenRequest key id sc ps).method = "GET"
        ∧ (getBlockChildrenRequest key id sc ps).url
            = BASE_URL ++ getBlockChildrenPath id sc ps
        ∧ (getBlockChildrenRequest key id sc ps).body = none)
    ∧ (∀ key id ch,
        (appendBlockChildrenRequest key id ch).method = "PATCH"
        ∧ (appendBlockChildrenRequest key id ch).url
            = BASE_URL ++ ("/blocks/" ++ id ++ "/children")
        ∧ (appendBlockChildrenRequest key id ch).body
            = some (.obj [("children", .arr ch)]))
    ∧ (∀ key id, (deleteBlockRequest key id).method = "DELETE"
        ∧ (deleteBlockRequest key id).url = BASE_URL ++ ("/blocks/" ++ id)
        ∧ (deleteBlockRequest key id).body = none)
    ∧ (∀ key sc ps, (listUsersRequest key sc ps).method = "GET"
        ∧ (listUsersRequest key sc ps).url = BASE_URL ++ listUsersPath sc ps
        ∧ (listUsersRequest key sc ps).body = none)
    ∧ (∀ key id, (getUserRequest key id).method = "GET"
        ∧ (getUserRequest key id).url = BASE_URL ++ ("/users/" ++ id)
        ∧ (getUserRequest key id).body = none) := by
  refine ⟨?_, fun key q f so sc ps => ⟨rfl, rfl, rfl⟩,
    fun key id => ⟨rfl, rfl, rfl⟩, fun key id f so sc ps => ⟨rfl, rfl, rfl⟩,
    fun key pid title props => ⟨rfl, rfl, rfl⟩,
    fun key pid pt props ch => ⟨rfl, rfl, rfl⟩, fun key id => ⟨rfl, rfl, rfl⟩,
    fun key id props ar => ⟨rfl, rfl, rfl⟩, fun key id => ⟨rfl, rfl, rfl⟩,
    fun key id sc ps => ⟨rfl, rfl, rfl⟩, fun key id ch => ⟨rfl, rfl, rfl⟩,
    fun key id => ⟨rfl, rfl, rfl⟩, fun key sc ps => ⟨rfl, rfl, rfl⟩,
    fun key id => ⟨rfl, rfl, rfl⟩⟩
  intro key method path b
  refine ⟨rfl, rfl, rfl, rfl, ?_⟩
  unfold buildWire
  dsimp only
  by_cases hc : b.isSome = true ∧ (method = "POST" ∨ method = "PATCH")
  · rw [if_pos hc]
    exact ⟨fun h => ⟨h, hc.2⟩, fun h => h.1⟩
  · rw [if_neg hc]
    constructor
    · intro h
      exact absurd rfl h
    · intro h
      exact absurd ⟨Option.isSome_iff_ne_none.mpr h.1, h.2⟩ hc

/-- Witness for C9: a supplied body is attached on `POST` but stripped on
`GET`, at concrete inputs. -/
theorem wire_contract_requests_witness :
    (buildWire "k" "POST" "/search" (some (.obj []))).body ≠ none
    ∧ ((some (.obj []) : Option JsonVal) ≠ none
        ∧ ("POST" = "POST" ∨ "POST" = "PATCH"))
    ∧ (buildWire "k" "GET" "/users" (some (.obj []))).body = none :=
  ⟨(wire_contract_requests.1 "k" "POST" "/search" (some (.obj []))).2.2.2.2.mpr
      ⟨fun h => Option.noConfusion h, Or.inl rfl⟩,
   ⟨fun h => Option.noConfusion h, Or.inl rfl⟩, rfl⟩

/-! ## C10: supplied-but-falsy optional arguments -/

/-- C10.  Optional arguments that are supplied but falsy are treated exactly
as if absent: `search("")` sends the empty body, a page size of `0` and an
empty-string cursor are omitted, and a JSON-null filter / sorts / properties
is omitted — with the single exception of `updatePage`'s `archived` flag,
which is included whenever it is defined, so `archived: false` is sent
explicitly. -/
theorem falsy_optional_arguments_treated_as_absent :
    searchBody (some "") none none none none = []
    ∧ (∀ q f so sc, hasKey (searchBody q f so sc (some 0)) "page_size" = false)
    ∧ (∀ q f so ps,
        hasKey (searchBody q f so (some "") ps) "start_cursor" = false)
    ∧ (∀ f so sc, hasKey (queryDatabaseBody f so sc (some 0)) "page_size" = false)
    ∧ (∀ f so ps,
        hasKey (queryDatabaseBody f so (some "") ps) "start_cursor" = false)
    ∧ (∀ so sc ps,
        hasKey (queryDatabaseBody (some .null) so sc ps) "filter" = false)
    ∧ (∀ f sc ps, hasKey (queryDatabaseBody f (some .null) sc ps) "sorts" = false)
    ∧ (∀ a, hasKey (updatePageBody (some .null) a) "properties" = false)
    ∧ updatePageBody none (some false) = [("archived", JsonVal.bool false)]
    ∧ cursorParam (some "") = []
    ∧ pageSizeParam (some 0) = [] := by
  refine ⟨rfl, ?_, ?_, ?_, ?_, ?_, ?_, ?_, rfl, rfl, rfl⟩
  · intro q f so sc
    simp only [searchBody, hasKey_append,
      hasKey_optStrField_of_ne (by decide : "query" ≠ "page_size"),
      hasKey_optValField_of_ne (by decide : "filter" ≠ "page_size"),
      hasKey_optValField_of_ne (by decide : "sort" ≠ "page_size"),
      hasKey_optStrField_of_ne (by decide : "start_cursor" ≠ "page_size")]
    rfl
  · intro q f so ps
    simp only [searchBody, hasKey_append,
      hasKey_optStrField_of_ne (by decide : "query" ≠ "start_cursor"),
      hasKey_optValField_of_ne (by decide : "filter" ≠ "start_cursor"),
      hasKey_optValField_of_ne (by decide : "sort" ≠ "start_cursor"),
      hasKey_optIntField_of_ne (by decide : "page_size" ≠ "start_cursor")]
    rfl
  · intro f so sc
    simp only [queryDatabaseBody, hasKey_append,
      hasKey_optValField_of_ne (by decide : "filter" ≠ "page_size"),
      hasKey_optValField_of_ne (by decide : "sorts" ≠ "page_size"),
      hasKey_optStrField_of_ne (by decide : "start_cursor" ≠ "page_size")]
    rfl
  · intro f so ps
    simp only [queryDatabaseBody, hasKey_append,
      hasKey_optValField_of_ne (by decide : "filter" ≠ "start_cursor"),
      hasKey_optValField_of_ne (by decide : "sorts" ≠ "start_cursor"),
      hasKey_optIntField_of_ne (by decide : "page_size" ≠ "start_cursor")]
    rfl
  · intro so sc ps
    simp only [queryDatabaseBody, hasKey_append,
      hasKey_optValField_of_ne (by decide : "sorts" ≠ "filter"),
      hasKey_optStrField_of_ne (by decide : "start_cursor" ≠ "filter"),
      hasKey_optIntField_of_ne (by decide : "page_size" ≠ "filter")]
    rfl
  · intro f sc ps
    simp only [queryDatabaseBody, hasKey_append,
      hasKey_optValField_of_ne (by decide : "filter" ≠ "sorts"),
      hasKey_optStrField_of_ne (by decide : "start_cursor" ≠ "sorts"),
      hasKey_optIntField_of_ne (by decide : "page_size" ≠ "sorts")]
    rfl
  · intro a
    unfold updatePageBody
    cases a with
    | none => rfl
    | some b =>
        simp only [hasKey_append]
        simp [optValField, jsTruthy, hasKey]
